import Mathlib

/-!
Shallow embedding of `python-package/xgboost/spark/estimator.py`.

The file under verification is glue code between the XGBoost sklearn-style
estimators and the PySpark ML pipeline API.  It consists of:

* `_set_pyspark_xgb_cls_param_attrs`, which mirrors every XGBoost
  constructor / fit / predict default-parameter name onto a PySpark
  `Param` descriptor attached to both an estimator class and its paired
  model class, with a nested `param_value_converter` that recursively
  replaces numpy generic scalars by plain Python scalars, and
  `set_param_attrs`, which installs the converter on each `Param` and
  `setattr`s it onto both classes;
* three estimator subclasses — `SparkXGBRegressor`, `SparkXGBClassifier`,
  `SparkXGBRanker` — whose `_validate_params` overrides first run the
  inherited base-class validation and then enforce task-specific guards
  (ranker requires `qid_col`; regressor/classifier forbid `qid_col`;
  classifier forbids a truthy `objective` override).

The base class `_SparkXGBEstimator` lives in `xgboost/spark/core.py`,
which is not part of the sources under verification; its validation is
therefore kept abstract (a parameter of the embedded validators), and the
PySpark `Params` protocol (`isDefined`, `getOrDefault`, `_setDefault`) is
embedded with its documented dictionary semantics: `isDefined p` holds
when `p` has an explicitly set value or a default value, and
`getOrDefault p` returns the explicitly set value when present, else the
default value.
-/

/-- Plain scalar payloads.  A numpy generic scalar wraps such a payload and
`np.array(v).item()` extracts it as the corresponding plain Python scalar. -/
inductive PyScalar : Type where
  | int (n : Int)
  | bool (b : Bool)
  | str (s : String)
deriving DecidableEq

mutual

/-- A Python runtime value, as far as `param_value_converter` can observe it:
a numpy generic scalar, a plain scalar, `None`, a list, a dict with string
keys, or any other object (kept opaque under a tag). -/
inductive PyVal : Type where
  | np (s : PyScalar)
  | plain (s : PyScalar)
  | pynone
  | vlist (l : PyValList)
  | vdict (d : PyDict)
  | obj (tag : String)

/-- A Python list of values. -/
inductive PyValList : Type where
  | nil
  | cons (v : PyVal) (tl : PyValList)

/-- A Python dict with string keys, in insertion order. -/
inductive PyDict : Type where
  | nil
  | cons (k : String) (v : PyVal) (tl : PyDict)

end

mutual

/-- Embedding of the nested `param_value_converter` from
`_set_pyspark_xgb_cls_param_attrs`: a numpy generic scalar becomes the
corresponding plain Python scalar via `np.array(v).item()`; a dict is
rebuilt with converted values under the same keys; a list is rebuilt with
converted elements; everything else is returned unchanged. -/
def param_value_converter : PyVal → PyVal
  | PyVal.np s => PyVal.plain s
  | PyVal.vdict d => PyVal.vdict (convDict d)
  | PyVal.vlist l => PyVal.vlist (convList l)
  | PyVal.plain s => PyVal.plain s
  | PyVal.pynone => PyVal.pynone
  | PyVal.obj t => PyVal.obj t

/-- Elementwise conversion of a Python list
(`[param_value_converter(nv) for nv in v]`). -/
def convList : PyValList → PyValList
  | PyValList.nil => PyValList.nil
  | PyValList.cons v tl => PyValList.cons (param_value_converter v) (convList tl)

/-- Valuewise conversion of a Python dict
(`{k: param_value_converter(nv) for k, nv in v.items()}`). -/
def convDict : PyDict → PyDict
  | PyDict.nil => PyDict.nil
  | PyDict.cons k v tl => PyDict.cons k (param_value_converter v) (convDict tl)

end

mutual

/-- Whether a value contains a numpy generic scalar anywhere inside. -/
def PyVal.hasNp : PyVal → Bool
  | PyVal.np _ => true
  | PyVal.plain _ => false
  | PyVal.pynone => false
  | PyVal.vlist l => hasNpList l
  | PyVal.vdict d => hasNpDict d
  | PyVal.obj _ => false

/-- Whether some element of a list contains a numpy generic scalar. -/
def hasNpList : PyValList → Bool
  | PyValList.nil => false
  | PyValList.cons v tl => PyVal.hasNp v || hasNpList tl

/-- Whether some value of a dict contains a numpy generic scalar. -/
def hasNpDict : PyDict → Bool
  | PyDict.nil => false
  | PyDict.cons _ v tl => PyVal.hasNp v || hasNpDict tl

end

/-- The keys of a dict, in order. -/
def PyDict.keys : PyDict → List String
  | PyDict.nil => []
  | PyDict.cons k _ tl => k :: PyDict.keys tl

/-- The length of a Python list. -/
def PyValList.length : PyValList → Nat
  | PyValList.nil => 0
  | PyValList.cons _ tl => PyValList.length tl + 1

/-- Python truthiness of a scalar: `0`, `False` and `""` are falsy. -/
def PyScalar.truthy : PyScalar → Bool
  | PyScalar.int n => n != 0
  | PyScalar.bool b => b
  | PyScalar.str s => s != ""

/-- Python truthiness of a value: `None`, falsy scalars, empty lists and
empty dicts are falsy; other objects are truthy. -/
def PyVal.truthy : PyVal → Bool
  | PyVal.np s => PyScalar.truthy s
  | PyVal.plain s => PyScalar.truthy s
  | PyVal.pynone => false
  | PyVal.vlist PyValList.nil => false
  | PyVal.vlist (PyValList.cons _ _) => true
  | PyVal.vdict PyDict.nil => false
  | PyVal.vdict (PyDict.cons _ _ _) => true
  | PyVal.obj _ => true

/-- Truthiness of a lookup result; an absent value is treated as falsy
(it never arises on the paths the code exercises). -/
def truthyOpt : Option PyVal → Bool
  | Option.none => false
  | Option.some v => PyVal.truthy v

/-- Lookup in an association list with string keys (a Python dict). -/
def lookupA (l : List (String × PyVal)) (k : String) : Option PyVal :=
  match l with
  | [] => Option.none
  | (k2, v) :: tl => if k2 = k then Option.some v else lookupA tl k

/-- The parameter state of a PySpark `Params` object: the explicitly set
values (`_paramMap`) and the default values (`_defaultParamMap`). -/
structure ParamMap where
  values : List (String × PyVal)
  defaults : List (String × PyVal)

/-- PySpark `Params.isDefined`: the parameter has an explicitly set value
or a default value. -/
def ParamMap.isDefined (m : ParamMap) (p : String) : Bool :=
  (lookupA m.values p).isSome || (lookupA m.defaults p).isSome

/-- PySpark `Params.getOrDefault`: the explicitly set value when present,
else the default value. -/
def ParamMap.getOrDefault (m : ParamMap) (p : String) : Option PyVal :=
  match lookupA m.values p with
  | Option.some v => Option.some v
  | Option.none => lookupA m.defaults p

/-- Whether the parameter has an explicitly set (non-default) value
(PySpark `Params.isSet`). -/
def ParamMap.isSet (m : ParamMap) (p : String) : Bool :=
  (lookupA m.values p).isSome

/-- Explicitly set a parameter value (PySpark `Params.set`). -/
def ParamMap.setValue (m : ParamMap) (p : String) (v : PyVal) : ParamMap :=
  { m with values := (p, v) :: m.values }

/-- A Python exception: its class name and its message. -/
structure PyErr where
  kind : String
  msg : String
deriving DecidableEq

/-- A computation over an estimator's parameter state that can raise an
exception.  The final state is kept even on the error path, mirroring the
fact that a Python object keeps its attribute state when a method raises. -/
def VM (α : Type) : Type := ParamMap → ParamMap × Except PyErr α

/-- Return a pure value, leaving the state unchanged. -/
def VM.pure {α : Type} (a : α) : VM α := fun m => (m, Except.ok a)

/-- Sequence two computations; an exception short-circuits. -/
def VM.bind {α β : Type} (x : VM α) (f : α → VM β) : VM β := fun m =>
  match x m with
  | (m2, Except.ok a) => f a m2
  | (m2, Except.error e) => (m2, Except.error e)

/-- Raise an exception (`raise` in Python). -/
def VM.throwErr {α : Type} (e : PyErr) : VM α := fun m => (m, Except.error e)

/-- Read `self.isDefined(param)`. -/
def VM.isDefinedP (p : String) : VM Bool := fun m => (m, Except.ok (m.isDefined p))

/-- Read `self.getOrDefault(param)`. -/
def VM.getOrDefaultP (p : String) : VM (Option PyVal) := fun m =>
  (m, Except.ok (m.getOrDefault p))

instance : Monad VM where
  pure := VM.pure
  bind := VM.bind

namespace SparkXGBRegressor

/-- `SparkXGBRegressor._validate_params`: run the inherited base-class
validation (`base`, which lives in `xgboost/spark/core.py`, outside the
sources under verification, and is therefore kept abstract), then raise a
`ValueError` if `qid_col` is defined. -/
def validate_params (base : VM Unit) : VM Unit :=
  VM.bind base (fun _ =>
  VM.bind (VM.isDefinedP "qid_col") (fun qidDefined =>
  if qidDefined then
    VM.throwErr ⟨"ValueError",
      "Spark Xgboost regressor estimator does not support `qid_col` param."⟩
  else
    VM.pure ()))

end SparkXGBRegressor

namespace SparkXGBClassifier

/-- `SparkXGBClassifier._validate_params`: run the inherited base-class
validation, raise a `ValueError` if `qid_col` is defined, then raise a
`ValueError` if `self.getOrDefault(self.objective)` is truthy. -/
def validate_params (base : VM Unit) : VM Unit :=
  VM.bind base (fun _ =>
  VM.bind (VM.isDefinedP "qid_col") (fun qidDefined =>
  if qidDefined then
    VM.throwErr ⟨"ValueError",
      "Spark Xgboost classifier estimator does not support `qid_col` param."⟩
  else
    VM.bind (VM.getOrDefaultP "objective") (fun objVal =>
    if truthyOpt objVal then
      VM.throwErr ⟨"ValueError",
        "Setting custom 'objective' param is not allowed in 'SparkXGBClassifier'."⟩
    else
      VM.pure ())))

/-- The parameter state produced by `SparkXGBClassifier.__init__` with no
keyword arguments, restricted to the parameters the subclass guards read:
`__init__` calls `self._setDefault(objective=None)` so `objective` has
default `None` and no explicitly set value, and `qid_col` has neither a
set value nor a default (the ranker requires setting it explicitly). -/
def freshState : ParamMap :=
  { values := [], defaults := [("objective", PyVal.pynone)] }

end SparkXGBClassifier

namespace SparkXGBRanker

/-- `SparkXGBRanker._validate_params`: run the inherited base-class
validation, then raise a `ValueError` if `qid_col` is not defined. -/
def validate_params (base : VM Unit) : VM Unit :=
  VM.bind base (fun _ =>
  VM.bind (VM.isDefinedP "qid_col") (fun qidDefined =>
  if qidDefined then
    VM.pure ()
  else
    VM.throwErr ⟨"ValueError",
      "Spark Xgboost ranker estimator requires setting `qid_col` param."⟩))

end SparkXGBRanker

/-- A PySpark `Param` descriptor as this module uses it: its `name`, its
`doc` string, and its `typeConverter` (`Param(Params._dummy(), name=name,
doc=doc)` also stores a dummy parent, which no claim inspects). -/
structure Param where
  name : String
  doc : String
  typeConverter : PyVal → PyVal

/-- The attribute table of a Python class, restricted to `Param`-valued
attributes: `setattr(cls, n, p)` updates it at `n`. -/
structure ClassAttrs where
  attrs : String → Option Param

/-- `setattr(c, n, p)`. -/
def setattrP (c : ClassAttrs) (n : String) (p : Param) : ClassAttrs :=
  ⟨fun k => if k = n then Option.some p else c.attrs k⟩

/-- The mutable context of `_set_pyspark_xgb_cls_param_attrs`: the
estimator class, the paired model class, and (for bookkeeping) the list of
`Param` objects constructed so far, in construction order. -/
structure SetAttrsState where
  est : ClassAttrs
  model : ClassAttrs
  created : List Param

/-- The nested `set_param_attrs(attr_name, param)`: install
`param_value_converter` as the param's `typeConverter`, then `setattr` the
very same object onto both the estimator class and the model class. -/
def set_param_attrs (st : SetAttrsState) (attr_name : String) (p : Param) : SetAttrsState :=
  let p2 : Param := { p with typeConverter := param_value_converter }
  ⟨setattrP st.est attr_name p2, setattrP st.model attr_name p2, st.created ++ [p2]⟩

/-- Doc string built for a constructor parameter:
`f"Refer to XGBoost doc of {cls} for this param {name}"`. -/
def xgbParamDoc (cls name : String) : String :=
  "Refer to XGBoost doc of " ++ cls ++ " for this param " ++ name

/-- The warning appended to the doc of the fit parameter `callbacks`. -/
def callbacksWarning : String :=
  "The callbacks can be arbitrary functions. It is saved using cloudpickle " ++
  "which is not a fully self-contained format. It may fail to load with " ++
  "different versions of dependencies."

/-- Doc string built for a fit parameter:
`f"Refer to XGBoost doc of {cls}.fit() for this param {name}"`, with the
cloudpickle warning appended when the name is `callbacks`. -/
def fitParamDoc (cls name : String) : String :=
  let d := "Refer to XGBoost doc of " ++ cls ++ ".fit() for this param " ++ name
  if name = "callbacks" then d ++ callbacksWarning else d

/-- Doc string built for a predict parameter:
`f"Refer to XGBoost doc of {cls}.predict() for this param {name}"`. -/
def predictParamDoc (cls name : String) : String :=
  "Refer to XGBoost doc of " ++ cls ++ ".predict() for this param " ++ name

/-- The `Param` object as it ends up attached for a given doc builder:
constructed as `Param(Params._dummy(), name=name, doc=doc)` with the
default identity converter, then given `param_value_converter` by
`set_param_attrs`. -/
def mkAttachedParam (docFn : String → String → String) (cls name : String) : Param :=
  { name := name, doc := docFn cls name, typeConverter := param_value_converter }

/-- One of the three loops of `_set_pyspark_xgb_cls_param_attrs`: for each
name of the given defaults dictionary, build the doc string, construct the
`Param` (with the default identity converter), and hand it to
`set_param_attrs`. -/
def processNames (docFn : String → String → String) (cls : String)
    (names : List String) (st : SetAttrsState) : SetAttrsState :=
  names.foldl
    (fun st2 name =>
      set_param_attrs st2 name { name := name, doc := docFn cls name, typeConverter := id })
    st

/-- `_set_pyspark_xgb_cls_param_attrs(estimator, model)`, abstracted over
what the estimator reports: `cls` is `get_class_name(estimator._xgb_cls())`
and `ctorKeys`, `fitKeys`, `predictKeys` are the key lists of
`estimator._get_xgb_params_default()`, `estimator._get_fit_params_default()`
and `estimator._get_predict_params_default()` (all provided by
`xgboost/spark/core.py`, outside the sources under verification).  The
three loops run in this order. -/
def set_pyspark_xgb_cls_param_attrs (cls : String)
    (ctorKeys fitKeys predictKeys : List String) (st : SetAttrsState) : SetAttrsState :=
  processNames predictParamDoc cls predictKeys
    (processNames fitParamDoc cls fitKeys
      (processNames xgbParamDoc cls ctorKeys st))

/-- A pair of classes with no `Param` attributes yet and nothing
constructed yet. -/
def emptyAttrsState : SetAttrsState :=
  ⟨⟨fun _ => Option.none⟩, ⟨fun _ => Option.none⟩, []⟩

section ValidatorLemmas

/-- Characterization of the regressor validator: base first, then the
`qid_col` guard. -/
theorem regressor_validate_run (base : VM Unit) (m : ParamMap) :
    SparkXGBRegressor.validate_params base m =
      match base m with
      | (m2, Except.error e) => (m2, Except.error e)
      | (m2, Except.ok _) =>
          if m2.isDefined "qid_col" then
            (m2, Except.error ⟨"ValueError",
              "Spark Xgboost regressor estimator does not support `qid_col` param."⟩)
          else (m2, Except.ok ()) := by
  simp only [SparkXGBRegressor.validate_params, VM.bind, VM.isDefinedP, VM.pure, VM.throwErr]
  cases hb : base m with
  | mk m2 r =>
    cases r with
    | error e => rfl
    | ok a =>
      dsimp only
      by_cases h : m2.isDefined "qid_col" = true
      · simp [h, VM.throwErr, VM.pure]
      · simp [h, VM.throwErr, VM.pure]

/-- Characterization of the ranker validator: base first, then the
required-`qid_col` guard. -/
theorem ranker_validate_run (base : VM Unit) (m : ParamMap) :
    SparkXGBRanker.validate_params base m =
      match base m with
      | (m2, Except.error e) => (m2, Except.error e)
      | (m2, Except.ok _) =>
          if m2.isDefined "qid_col" then (m2, Except.ok ())
          else (m2, Except.error ⟨"ValueError",
            "Spark Xgboost ranker estimator requires setting `qid_col` param."⟩) := by
  simp only [SparkXGBRanker.validate_params, VM.bind, VM.isDefinedP, VM.pure, VM.throwErr]
  cases hb : base m with
  | mk m2 r =>
    cases r with
    | error e => rfl
    | ok a =>
      dsimp only
      by_cases h : m2.isDefined "qid_col" = true
      · simp [h, VM.throwErr, VM.pure]
      · simp [h, VM.throwErr, VM.pure]

/-- Characterization of the classifier validator: base first, then the
`qid_col` guard, then the truthy-`objective` guard. -/
theorem classifier_validate_run (base : VM Unit) (m : ParamMap) :
    SparkXGBClassifier.validate_params base m =
      match base m with
      | (m2, Except.error e) => (m2, Except.error e)
      | (m2, Except.ok _) =>
          if m2.isDefined "qid_col" then
            (m2, Except.error ⟨"ValueError",
              "Spark Xgboost classifier estimator does not support `qid_col` param."⟩)
          else if truthyOpt (m2.getOrDefault "objective") then
            (m2, Except.error ⟨"ValueError",
              "Setting custom 'objective' param is not allowed in 'SparkXGBClassifier'."⟩)
          else (m2, Except.ok ()) := by
  simp only [SparkXGBClassifier.validate_params, VM.bind, VM.isDefinedP, VM.getOrDefaultP,
    VM.pure, VM.throwErr]
  cases hb : base m with
  | mk m2 r =>
    cases r with
    | error e => rfl
    | ok a =>
      dsimp only
      by_cases h : m2.isDefined "qid_col" = true
      · simp [h, VM.throwErr, VM.pure]
      · by_cases h2 : truthyOpt (m2.getOrDefault "objective") = true
        · simp [h, h2, VM.bind, VM.getOrDefaultP, VM.throwErr, VM.pure]
        · simp [h, h2, VM.bind, VM.getOrDefaultP, VM.throwErr, VM.pure]

end ValidatorLemmas

/-- A parameter state with `qid_col` explicitly set (the ranker usage
`SparkXGBRanker(qid_col="qid")` from the module docstring). -/
def qidSetState : ParamMap :=
  { values := [("qid_col", PyVal.plain (PyScalar.str "qid"))], defaults := [] }

/-- A parameter state with nothing set and no defaults. -/
def emptyState : ParamMap := { values := [], defaults := [] }

/-- C1: with the inherited base-class validation succeeding on the
instance, `SparkXGBRanker._validate_params` raises a `ValueError` if and
only if the `qid_col` parameter is not defined on the instance. -/
theorem ranker_validate_valueerror_iff_qid_undefined
    (base : VM Unit) (m : ParamMap) (hbase : base m = (m, Except.ok ())) :
    (∃ e : PyErr, (SparkXGBRanker.validate_params base m).2 = Except.error e ∧
      e.kind = "ValueError")
    ↔ m.isDefined "qid_col" = false := by
  rw [ranker_validate_run, hbase]
  by_cases h : m.isDefined "qid_col" = true
  · simp [h]
  · simp only [Bool.not_eq_true] at h
    simp [h]

/-- Witness for C1: on a state with no parameters defined, the ranker
validator raises a `ValueError`. -/
theorem ranker_validate_valueerror_iff_qid_undefined_witness :
    ∃ e : PyErr, (SparkXGBRanker.validate_params (VM.pure ()) emptyState).2 = Except.error e ∧
      e.kind = "ValueError" :=
  (ranker_validate_valueerror_iff_qid_undefined (VM.pure ()) emptyState rfl).mpr rfl

/-- A classifier parameter state whose `objective` is explicitly set to
the custom (non-default) value `""`: the default is `None` as installed by
`SparkXGBClassifier.__init__`, and the set value differs from it. -/
def objEmptyStrState : ParamMap :=
  { values := [("objective", PyVal.plain (PyScalar.str ""))],
    defaults := [("objective", PyVal.pynone)] }

/-- Counterexample to C2 as stated: `objective` is explicitly set on
`objEmptyStrState` to `""`, a custom value different from the default
`None`, yet `SparkXGBClassifier._validate_params` (with the base-class
validation succeeding) raises nothing, because the guard tests Python
truthiness of `getOrDefault` and `""` is falsy. -/
theorem classifier_objective_set_custom_no_raise :
    objEmptyStrState.isSet "objective" = true ∧
    lookupA objEmptyStrState.values "objective" =
      Option.some (PyVal.plain (PyScalar.str "")) ∧
    PyVal.plain (PyScalar.str "") ≠ PyVal.pynone ∧
    (SparkXGBClassifier.validate_params (VM.pure ()) objEmptyStrState).2 = Except.ok () := by
  refine ⟨rfl, rfl, fun hcontr => PyVal.noConfusion hcontr, ?_⟩
  rw [classifier_validate_run]
  rfl

/-- C2 (amended): with the base-class validation succeeding and `qid_col`
not defined, `SparkXGBClassifier._validate_params` raises a `ValueError`
if and only if the effective `objective` value (set value, else default)
is truthy — in particular it raises for every truthy custom objective and
does not fire on a freshly constructed classifier, whose `objective`
defaults to `None`. -/
theorem classifier_objective_guard_amended
    (base : VM Unit) (m : ParamMap) (hbase : base m = (m, Except.ok ()))
    (hqid : m.isDefined "qid_col" = false) :
    ((SparkXGBClassifier.validate_params base m).2 =
      if truthyOpt (m.getOrDefault "objective") then
        Except.error ⟨"ValueError",
          "Setting custom 'objective' param is not allowed in 'SparkXGBClassifier'."⟩
      else Except.ok ()) ∧
    (SparkXGBClassifier.validate_params (VM.pure ())
      SparkXGBClassifier.freshState).2 = Except.ok () := by
  constructor
  · rw [classifier_validate_run, hbase]
    simp [hqid]
    split <;> rfl
  · rw [classifier_validate_run]
    rfl

/-- A classifier parameter state whose `objective` is explicitly set to
the truthy custom value `"multi:softmax"`. -/
def objSoftmaxState : ParamMap :=
  { values := [("objective", PyVal.plain (PyScalar.str "multi:softmax"))],
    defaults := [("objective", PyVal.pynone)] }

/-- Witness for the amended C2: with `objective` set to `"multi:softmax"`,
the classifier validator raises the objective `ValueError`. -/
theorem classifier_objective_guard_amended_witness :
    ((SparkXGBClassifier.validate_params (VM.pure ()) objSoftmaxState).2 =
      if truthyOpt (objSoftmaxState.getOrDefault "objective") then
        Except.error ⟨"ValueError",
          "Setting custom 'objective' param is not allowed in 'SparkXGBClassifier'."⟩
      else Except.ok ()) ∧
    (SparkXGBClassifier.validate_params (VM.pure ())
      SparkXGBClassifier.freshState).2 = Except.ok () :=
  classifier_objective_guard_amended (VM.pure ()) objSoftmaxState rfl rfl

/-- C3: with the base-class validation succeeding, both
`SparkXGBRegressor._validate_params` and
`SparkXGBClassifier._validate_params` raise a `ValueError` whenever
`qid_col` is defined, and the regressor validator raises nothing when
`qid_col` is not defined. -/
theorem regressor_classifier_qid_forbidden
    (base : VM Unit) (m : ParamMap) (hbase : base m = (m, Except.ok ())) :
    (m.isDefined "qid_col" = true →
      (SparkXGBRegressor.validate_params base m).2 = Except.error ⟨"ValueError",
        "Spark Xgboost regressor estimator does not support `qid_col` param."⟩ ∧
      (SparkXGBClassifier.validate_params base m).2 = Except.error ⟨"ValueError",
        "Spark Xgboost classifier estimator does not support `qid_col` param."⟩) ∧
    (m.isDefined "qid_col" = false →
      (SparkXGBRegressor.validate_params base m).2 = Except.ok ()) := by
  constructor
  · intro h
    rw [regressor_validate_run, classifier_validate_run, hbase]
    simp [h]
  · intro h
    rw [regressor_validate_run, hbase]
    simp [h]

/-- Witness for C3: on a state with `qid_col` set, both validators raise
their `ValueError`s; on the empty state the regressor validator succeeds. -/
theorem regressor_classifier_qid_forbidden_witness :
    ((SparkXGBRegressor.validate_params (VM.pure ()) qidSetState).2 =
      Except.error ⟨"ValueError",
        "Spark Xgboost regressor estimator does not support `qid_col` param."⟩ ∧
     (SparkXGBClassifier.validate_params (VM.pure ()) qidSetState).2 =
      Except.error ⟨"ValueError",
        "Spark Xgboost classifier estimator does not support `qid_col` param."⟩) ∧
    (SparkXGBRegressor.validate_params (VM.pure ()) emptyState).2 = Except.ok () :=
  ⟨(regressor_classifier_qid_forbidden (VM.pure ()) qidSetState rfl).1 rfl,
   (regressor_classifier_qid_forbidden (VM.pure ()) emptyState rfl).2 rfl⟩

/-- C4: the three `_validate_params` overrides never change the parameter
state, whether they raise or not; the inherited base-class validation is
assumed state-preserving (per the spec it only reads parameters and fails
immediately). -/
theorem validate_params_state_unchanged
    (base : VM Unit) (m : ParamMap) (hbase : (base m).1 = m) :
    (SparkXGBRegressor.validate_params base m).1 = m ∧
    (SparkXGBClassifier.validate_params base m).1 = m ∧
    (SparkXGBRanker.validate_params base m).1 = m := by
  rw [regressor_validate_run, classifier_validate_run, ranker_validate_run]
  cases hb : base m with
  | mk m2 r =>
    rw [hb] at hbase
    subst hbase
    cases r with
    | error e => exact ⟨rfl, rfl, rfl⟩
    | ok a =>
      refine ⟨?_, ?_, ?_⟩ <;> dsimp only <;> split <;> first | rfl | (split <;> rfl)

/-- Witness for C4: on a state with `qid_col` set, each validator leaves
the state unchanged even though two of them raise. -/
theorem validate_params_state_unchanged_witness :
    (SparkXGBRegressor.validate_params (VM.pure ()) qidSetState).1 = qidSetState ∧
    (SparkXGBClassifier.validate_params (VM.pure ()) qidSetState).1 = qidSetState ∧
    (SparkXGBRanker.validate_params (VM.pure ()) qidSetState).1 = qidSetState :=
  validate_params_state_unchanged (VM.pure ()) qidSetState rfl

/-- Setting one parameter does not change the lookup of another. -/
theorem lookupA_setValue_ne (l : List (String × PyVal)) (p q : String) (v : PyVal)
    (h : p ≠ q) : lookupA ((p, v) :: l) q = lookupA l q := by
  simp [lookupA, h]

/-- Setting one parameter does not change `isDefined` of another. -/
theorem isDefined_setValue_ne (m : ParamMap) (p q : String) (v : PyVal) (h : p ≠ q) :
    (m.setValue p v).isDefined q = m.isDefined q := by
  simp [ParamMap.isDefined, ParamMap.setValue, lookupA_setValue_ne _ _ _ _ h]

/-- Setting one parameter does not change `getOrDefault` of another. -/
theorem getOrDefault_setValue_ne (m : ParamMap) (p q : String) (v : PyVal) (h : p ≠ q) :
    (m.setValue p v).getOrDefault q = m.getOrDefault q := by
  simp [ParamMap.getOrDefault, ParamMap.setValue, lookupA_setValue_ne _ _ _ _ h]

/-- C6: with the base-class validation succeeding, the subclass guards
partition the mirrored parameter names: `qid_col` is required by the
ranker guard, forbidden by the regressor and classifier guards, a truthy
`objective` is forbidden by the classifier guard, and every other
parameter is freely settable — setting it never changes any guard's
outcome.  (`qid_col` and `objective` are distinct names, so the classes
are disjoint.) -/
theorem guards_partition_param_names (m : ParamMap) (p : String) (v : PyVal) :
    ("qid_col" : String) ≠ "objective" ∧
    ((∃ e : PyErr, (SparkXGBRanker.validate_params (VM.pure ()) m).2 = Except.error e)
      ↔ m.isDefined "qid_col" = false) ∧
    (m.isDefined "qid_col" = true →
      (∃ e : PyErr, (SparkXGBRegressor.validate_params (VM.pure ()) m).2 = Except.error e) ∧
      (∃ e : PyErr, (SparkXGBClassifier.validate_params (VM.pure ()) m).2 = Except.error e)) ∧
    (m.isDefined "qid_col" = false →
      ((∃ e : PyErr, (SparkXGBClassifier.validate_params (VM.pure ()) m).2 = Except.error e)
        ↔ truthyOpt (m.getOrDefault "objective") = true)) ∧
    (p ≠ "qid_col" →
      (SparkXGBRegressor.validate_params (VM.pure ()) (m.setValue p v)).2 =
        (SparkXGBRegressor.validate_params (VM.pure ()) m).2 ∧
      (SparkXGBRanker.validate_params (VM.pure ()) (m.setValue p v)).2 =
        (SparkXGBRanker.validate_params (VM.pure ()) m).2) ∧
    (p ≠ "qid_col" → p ≠ "objective" →
      (SparkXGBClassifier.validate_params (VM.pure ()) (m.setValue p v)).2 =
        (SparkXGBClassifier.validate_params (VM.pure ()) m).2) := by
  refine ⟨by decide, ?_, ?_, ?_, ?_, ?_⟩
  · rw [ranker_validate_run]
    by_cases h : m.isDefined "qid_col" = true
    · simp [VM.pure, h]
    · simp only [Bool.not_eq_true] at h
      simp [VM.pure, h]
  · intro h
    rw [regressor_validate_run, classifier_validate_run]
    simp [VM.pure, h]
  · intro h
    rw [classifier_validate_run]
    by_cases h2 : truthyOpt (m.getOrDefault "objective") = true
    · simp [VM.pure, h, h2]
    · simp only [Bool.not_eq_true] at h2
      simp [VM.pure, h, h2]
  · intro hp
    rw [regressor_validate_run, regressor_validate_run, ranker_validate_run,
      ranker_validate_run]
    simp only [VM.pure, isDefined_setValue_ne m p _ v hp]
    constructor <;> (split <;> rfl)
  · intro hp hobj
    rw [classifier_validate_run, classifier_validate_run]
    simp only [VM.pure, isDefined_setValue_ne m p _ v hp,
      getOrDefault_setValue_ne m p _ v hobj]
    split <;> first | rfl | (split <;> rfl)

/-- Witness for C6: setting `max_depth` on the empty state changes no
guard outcome, and on the empty state the ranker guard fires. -/
theorem guards_partition_param_names_witness :
    (SparkXGBRegressor.validate_params (VM.pure ())
        (emptyState.setValue "max_depth" (PyVal.plain (PyScalar.int 5)))).2 =
      (SparkXGBRegressor.validate_params (VM.pure ()) emptyState).2 ∧
    (SparkXGBRanker.validate_params (VM.pure ())
        (emptyState.setValue "max_depth" (PyVal.plain (PyScalar.int 5)))).2 =
      (SparkXGBRanker.validate_params (VM.pure ()) emptyState).2 :=
  (guards_partition_param_names emptyState "max_depth"
    (PyVal.plain (PyScalar.int 5))).2.2.2.2.1 (by decide)

mutual

/-- Converting twice is the same as converting once (value level). -/
theorem conv_idem_aux : ∀ v : PyVal,
    param_value_converter (param_value_converter v) = param_value_converter v
  | PyVal.np s => by simp [param_value_converter]
  | PyVal.plain s => by simp [param_value_converter]
  | PyVal.pynone => by simp [param_value_converter]
  | PyVal.obj t => by simp [param_value_converter]
  | PyVal.vlist l => by simp [param_value_converter, convList_idem_aux l]
  | PyVal.vdict d => by simp [param_value_converter, convDict_idem_aux d]

/-- Converting twice is the same as converting once (list level). -/
theorem convList_idem_aux : ∀ l : PyValList, convList (convList l) = convList l
  | PyValList.nil => by simp [convList]
  | PyValList.cons v tl => by simp [convList, conv_idem_aux v, convList_idem_aux tl]

/-- Converting twice is the same as converting once (dict level). -/
theorem convDict_idem_aux : ∀ d : PyDict, convDict (convDict d) = convDict d
  | PyDict.nil => by simp [convDict]
  | PyDict.cons k v tl => by simp [convDict, conv_idem_aux v, convDict_idem_aux tl]

end

/-- C9: `param_value_converter` is idempotent. -/
theorem param_value_converter_idempotent (v : PyVal) :
    param_value_converter (param_value_converter v) = param_value_converter v :=
  conv_idem_aux v

mutual

/-- The converter output contains no numpy generic scalar (value level). -/
theorem conv_hasNp_aux : ∀ v : PyVal, PyVal.hasNp (param_value_converter v) = false
  | PyVal.np s => by simp [param_value_converter, PyVal.hasNp]
  | PyVal.plain s => by simp [param_value_converter, PyVal.hasNp]
  | PyVal.pynone => by simp [param_value_converter, PyVal.hasNp]
  | PyVal.obj t => by simp [param_value_converter, PyVal.hasNp]
  | PyVal.vlist l => by simp [param_value_converter, PyVal.hasNp, convList_hasNp_aux l]
  | PyVal.vdict d => by simp [param_value_converter, PyVal.hasNp, convDict_hasNp_aux d]

/-- The converter output contains no numpy generic scalar (list level). -/
theorem convList_hasNp_aux : ∀ l : PyValList, hasNpList (convList l) = false
  | PyValList.nil => by simp [convList, hasNpList]
  | PyValList.cons v tl => by
      simp [convList, hasNpList, conv_hasNp_aux v, convList_hasNp_aux tl]

/-- The converter output contains no numpy generic scalar (dict level). -/
theorem convDict_hasNp_aux : ∀ d : PyDict, hasNpDict (convDict d) = false
  | PyDict.nil => by simp [convDict, hasNpDict]
  | PyDict.cons k v tl => by
      simp [convDict, hasNpDict, conv_hasNp_aux v, convDict_hasNp_aux tl]

end

mutual

/-- The converter is the identity on values free of numpy generic scalars
(value level). -/
theorem conv_eq_self_aux : ∀ v : PyVal, PyVal.hasNp v = false → param_value_converter v = v
  | PyVal.np s => by simp [PyVal.hasNp]
  | PyVal.plain s => by simp [param_value_converter]
  | PyVal.pynone => by simp [param_value_converter]
  | PyVal.obj t => by simp [param_value_converter]
  | PyVal.vlist l => by
      intro h
      simp only [PyVal.hasNp] at h
      simp [param_value_converter, convList_eq_self_aux l h]
  | PyVal.vdict d => by
      intro h
      simp only [PyVal.hasNp] at h
      simp [param_value_converter, convDict_eq_self_aux d h]

/-- The converter is the identity on numpy-free lists. -/
theorem convList_eq_self_aux : ∀ l : PyValList, hasNpList l = false → convList l = l
  | PyValList.nil => by simp [convList]
  | PyValList.cons v tl => by
      intro h
      simp only [hasNpList, Bool.or_eq_false_iff] at h
      simp [convList, conv_eq_self_aux v h.1, convList_eq_self_aux tl h.2]

/-- The converter is the identity on numpy-free dicts. -/
theorem convDict_eq_self_aux : ∀ d : PyDict, hasNpDict d = false → convDict d = d
  | PyDict.nil => by simp [convDict]
  | PyDict.cons k v tl => by
      intro h
      simp only [hasNpDict, Bool.or_eq_false_iff] at h
      simp [convDict, conv_eq_self_aux v h.1, convDict_eq_self_aux tl h.2]

end

/-- Index access into a Python list. -/
def PyValList.get? : PyValList → Nat → Option PyVal
  | PyValList.nil, _ => Option.none
  | PyValList.cons v _, 0 => Option.some v
  | PyValList.cons _ tl, n + 1 => PyValList.get? tl n

/-- Key access into a Python dict (first binding wins). -/
def PyDict.lookupD : PyDict → String → Option PyVal
  | PyDict.nil, _ => Option.none
  | PyDict.cons k v tl, q => if k = q then Option.some v else PyDict.lookupD tl q

/-- Conversion preserves list length. -/
theorem convList_length : ∀ l : PyValList, (convList l).length = l.length
  | PyValList.nil => rfl
  | PyValList.cons v tl => by simp [convList, PyValList.length, convList_length tl]

/-- Conversion acts elementwise on lists, preserving positions. -/
theorem convList_get : ∀ (l : PyValList) (i : Nat),
    (convList l).get? i = (l.get? i).map param_value_converter
  | PyValList.nil, _ => by simp [convList, PyValList.get?]
  | PyValList.cons v tl, 0 => by simp [convList, PyValList.get?]
  | PyValList.cons v tl, n + 1 => by simp [convList, PyValList.get?, convList_get tl n]

/-- Conversion preserves dict keys and their order. -/
theorem convDict_keys : ∀ d : PyDict, (convDict d).keys = d.keys
  | PyDict.nil => rfl
  | PyDict.cons k v tl => by simp [convDict, PyDict.keys, convDict_keys tl]

/-- Conversion acts valuewise on dicts, key by key. -/
theorem convDict_lookup : ∀ (d : PyDict) (q : String),
    (convDict d).lookupD q = (d.lookupD q).map param_value_converter
  | PyDict.nil, _ => by simp [convDict, PyDict.lookupD]
  | PyDict.cons k v tl, q => by
      by_cases h : k = q
      · simp [convDict, PyDict.lookupD, h]
      · simp [convDict, PyDict.lookupD, h, convDict_lookup tl q]

/-- After one loop of the mirroring function, the estimator class carries,
for each processed name, the attached `Param` built from that name and the
loop's doc builder; other attributes are untouched. -/
theorem processNames_est_attrs (docFn : String → String → String) (cls : String)
    (names : List String) (st : SetAttrsState) (q : String) :
    (processNames docFn cls names st).est.attrs q =
      if q ∈ names then Option.some (mkAttachedParam docFn cls q)
      else st.est.attrs q := by
  induction names generalizing st with
  | nil => simp [processNames]
  | cons n ns ih =>
    simp only [processNames, List.foldl_cons] at ih ⊢
    rw [ih]
    by_cases h : q ∈ ns
    · simp [h]
    · by_cases h2 : q = n
      · subst h2
        simp [h, set_param_attrs, setattrP, mkAttachedParam]
      · simp [h, h2, set_param_attrs, setattrP]

/-- Same statement for the paired model class. -/
theorem processNames_model_attrs (docFn : String → String → String) (cls : String)
    (names : List String) (st : SetAttrsState) (q : String) :
    (processNames docFn cls names st).model.attrs q =
      if q ∈ names then Option.some (mkAttachedParam docFn cls q)
      else st.model.attrs q := by
  induction names generalizing st with
  | nil => simp [processNames]
  | cons n ns ih =>
    simp only [processNames, List.foldl_cons] at ih ⊢
    rw [ih]
    by_cases h : q ∈ ns
    · simp [h]
    · by_cases h2 : q = n
      · subst h2
        simp [h, set_param_attrs, setattrP, mkAttachedParam]
      · simp [h, h2, set_param_attrs, setattrP]

/-- One loop appends exactly one constructed `Param` per processed name,
in loop order. -/
theorem processNames_created (docFn : String → String → String) (cls : String)
    (names : List String) (st : SetAttrsState) :
    (processNames docFn cls names st).created =
      st.created ++ names.map (mkAttachedParam docFn cls) := by
  induction names generalizing st with
  | nil => simp [processNames]
  | cons n ns ih =>
    simp only [processNames, List.foldl_cons] at ih ⊢
    rw [ih]
    simp [set_param_attrs, mkAttachedParam]

/-- The full run constructs exactly the `Param`s of the three key lists,
in order: constructor params, then fit params, then predict params. -/
theorem run_created (cls : String) (ks fs ps : List String) (st : SetAttrsState) :
    (set_pyspark_xgb_cls_param_attrs cls ks fs ps st).created =
      st.created ++ ks.map (mkAttachedParam xgbParamDoc cls)
        ++ fs.map (mkAttachedParam fitParamDoc cls)
        ++ ps.map (mkAttachedParam predictParamDoc cls) := by
  simp [set_pyspark_xgb_cls_param_attrs, processNames_created, List.append_assoc]

/-- The estimator attribute of each name after the full run: the predict
loop runs last, then fit, then constructor params; everything else is
untouched. -/
theorem run_est_attrs (cls : String) (ks fs ps : List String) (st : SetAttrsState)
    (q : String) :
    (set_pyspark_xgb_cls_param_attrs cls ks fs ps st).est.attrs q =
      if q ∈ ps then Option.some (mkAttachedParam predictParamDoc cls q)
      else if q ∈ fs then Option.some (mkAttachedParam fitParamDoc cls q)
      else if q ∈ ks then Option.some (mkAttachedParam xgbParamDoc cls q)
      else st.est.attrs q := by
  simp only [set_pyspark_xgb_cls_param_attrs, processNames_est_attrs]

/-- Same statement for the paired model class. -/
theorem run_model_attrs (cls : String) (ks fs ps : List String) (st : SetAttrsState)
    (q : String) :
    (set_pyspark_xgb_cls_param_attrs cls ks fs ps st).model.attrs q =
      if q ∈ ps then Option.some (mkAttachedParam predictParamDoc cls q)
      else if q ∈ fs then Option.some (mkAttachedParam fitParamDoc cls q)
      else if q ∈ ks then Option.some (mkAttachedParam xgbParamDoc cls q)
      else st.model.attrs q := by
  simp only [set_pyspark_xgb_cls_param_attrs, processNames_model_attrs]

/-- Filtering the constructed `Param`s of one loop by name counts the
occurrences of that name in the loop's key list. -/
theorem filter_name_map_length (docFn : String → String → String) (cls q : String)
    (l : List String) :
    ((l.map (mkAttachedParam docFn cls)).filter (fun pa => pa.name == q)).length =
      l.count q := by
  induction l with
  | nil => rfl
  | cons a l2 ih =>
    by_cases h : a = q
    · subst h
      simp [mkAttachedParam, List.count_cons, ih]
    · simp [mkAttachedParam, h, List.count_cons, ih]

/-- C5: for every name in the union of the constructor, fit and predict
default-parameter key lists (which, as Python dict key views, have no
duplicates), the mirroring run constructs exactly one `Param` carrying
that name, whose doc string is the one built for its list, and attaches it
under that name to both the estimator class and the model class. -/
theorem mirrored_param_attached_once (cls : String) (ks fs ps : List String)
    (q : String) (hnd : (ks ++ fs ++ ps).Nodup) (hq : q ∈ ks ++ fs ++ ps) :
    (((set_pyspark_xgb_cls_param_attrs cls ks fs ps emptyAttrsState).created.filter
        (fun pa => pa.name == q)).length = 1) ∧
    (∃ pa : Param,
      (set_pyspark_xgb_cls_param_attrs cls ks fs ps emptyAttrsState).est.attrs q =
        Option.some pa ∧
      (set_pyspark_xgb_cls_param_attrs cls ks fs ps emptyAttrsState).model.attrs q =
        Option.some pa ∧
      pa.name = q ∧
      (pa.doc = xgbParamDoc cls q ∨ pa.doc = fitParamDoc cls q ∨
        pa.doc = predictParamDoc cls q)) := by
  constructor
  · rw [run_created]
    have hcreated : emptyAttrsState.created = [] := rfl
    rw [hcreated]
    simp only [List.nil_append, List.append_assoc, List.filter_append,
      List.length_append, filter_name_map_length]
    have :
        q ∈ ks ++ (fs ++ ps) := by simpa [List.append_assoc] using hq
    have hnd2 : (ks ++ (fs ++ ps)).Nodup := by simpa [List.append_assoc] using hnd
    have hcount : (ks ++ (fs ++ ps)).count q = 1 :=
      List.count_eq_one_of_mem hnd2 this
    simpa [List.count_append] using hcount
  · rw [run_est_attrs, run_model_attrs]
    by_cases hps : q ∈ ps
    · exact ⟨mkAttachedParam predictParamDoc cls q, by simp [hps], by simp [hps], rfl,
        Or.inr (Or.inr rfl)⟩
    · by_cases hfs : q ∈ fs
      · exact ⟨mkAttachedParam fitParamDoc cls q, by simp [hps, hfs], by simp [hps, hfs],
          rfl, Or.inr (Or.inl rfl)⟩
      · have hks : q ∈ ks := by
          rcases List.mem_append.mp hq with h | h
          · rcases List.mem_append.mp h with h2 | h2
            · exact h2
            · exact absurd h2 hfs
          · exact absurd h hps
        exact ⟨mkAttachedParam xgbParamDoc cls q, by simp [hps, hfs, hks],
          by simp [hps, hfs, hks], rfl, Or.inl rfl⟩

/-- Witness for C5: mirroring `max_depth` (constructor), `callbacks` (fit)
and `output_margin` (predict) onto a class pair attaches exactly one
`callbacks` descriptor to both classes. -/
theorem mirrored_param_attached_once_witness :
    (((set_pyspark_xgb_cls_param_attrs "XGBRegressor" ["max_depth"] ["callbacks"]
        ["output_margin"] emptyAttrsState).created.filter
        (fun pa => pa.name == "callbacks")).length = 1) ∧
    (∃ pa : Param,
      (set_pyspark_xgb_cls_param_attrs "XGBRegressor" ["max_depth"] ["callbacks"]
        ["output_margin"] emptyAttrsState).est.attrs "callbacks" = Option.some pa ∧
      (set_pyspark_xgb_cls_param_attrs "XGBRegressor" ["max_depth"] ["callbacks"]
        ["output_margin"] emptyAttrsState).model.attrs "callbacks" = Option.some pa ∧
      pa.name = "callbacks" ∧
      (pa.doc = xgbParamDoc "XGBRegressor" "callbacks" ∨
        pa.doc = fitParamDoc "XGBRegressor" "callbacks" ∨
        pa.doc = predictParamDoc "XGBRegressor" "callbacks")) :=
  mirrored_param_attached_once "XGBRegressor" ["max_depth"] ["callbacks"]
    ["output_margin"] "callbacks" (by decide) (by decide)

/-- C10: `set_param_attrs` assigns the one identical `Param` object to
both classes, so after the run the estimator attribute and the model
attribute of every mirrored name are the same descriptor, carrying that
name and `param_value_converter` as its `typeConverter`. -/
theorem estimator_model_share_descriptor (cls : String) (ks fs ps : List String)
    (q : String) (hq : q ∈ ks ++ fs ++ ps) :
    (set_pyspark_xgb_cls_param_attrs cls ks fs ps emptyAttrsState).est.attrs q =
      (set_pyspark_xgb_cls_param_attrs cls ks fs ps emptyAttrsState).model.attrs q ∧
    (∃ pa : Param,
      (set_pyspark_xgb_cls_param_attrs cls ks fs ps emptyAttrsState).est.attrs q =
        Option.some pa ∧
      (set_pyspark_xgb_cls_param_attrs cls ks fs ps emptyAttrsState).model.attrs q =
        Option.some pa ∧
      pa.name = q ∧ pa.typeConverter = param_value_converter) := by
  rw [run_est_attrs, run_model_attrs]
  by_cases hps : q ∈ ps
  · exact ⟨by simp [hps], mkAttachedParam predictParamDoc cls q, by simp [hps],
      by simp [hps], rfl, rfl⟩
  · by_cases hfs : q ∈ fs
    · exact ⟨by simp [hps, hfs], mkAttachedParam fitParamDoc cls q, by simp [hps, hfs],
        by simp [hps, hfs], rfl, rfl⟩
    · have hks : q ∈ ks := by
        rcases List.mem_append.mp hq with h | h
        · rcases List.mem_append.mp h with h2 | h2
          · exact h2
          · exact absurd h2 hfs
        · exact absurd h hps
      exact ⟨by simp [hps, hfs, hks], mkAttachedParam xgbParamDoc cls q,
        by simp [hps, hfs, hks], by simp [hps, hfs, hks], rfl, rfl⟩

/-- Witness for C10: the shared `n_estimators` descriptor of a small
mirroring run. -/
theorem estimator_model_share_descriptor_witness :
    (set_pyspark_xgb_cls_param_attrs "XGBClassifier" ["n_estimators"] [] []
      emptyAttrsState).est.attrs "n_estimators" =
      (set_pyspark_xgb_cls_param_attrs "XGBClassifier" ["n_estimators"] [] []
        emptyAttrsState).model.attrs "n_estimators" ∧
    (∃ pa : Param,
      (set_pyspark_xgb_cls_param_attrs "XGBClassifier" ["n_estimators"] [] []
        emptyAttrsState).est.attrs "n_estimators" = Option.some pa ∧
      (set_pyspark_xgb_cls_param_attrs "XGBClassifier" ["n_estimators"] [] []
        emptyAttrsState).model.attrs "n_estimators" = Option.some pa ∧
      pa.name = "n_estimators" ∧ pa.typeConverter = param_value_converter) :=
  estimator_model_share_descriptor "XGBClassifier" ["n_estimators"] [] []
    "n_estimators" (by decide)

/-- The constructor-parameter doc decomposed into its pieces. -/
theorem xgb_doc_data (cls q : String) :
    (xgbParamDoc cls q).data =
      ("Refer to XGBoost doc of " : String).data ++ cls.data ++
        (" for this param " : String).data ++ q.data := by
  simp [xgbParamDoc, String.data_append]

/-- The literal of the fit doc splits off the `.fit()` method mention. -/
theorem fit_literal_split :
    (".fit()" : String).data ++ (" for this param " : String).data =
      (".fit() for this param " : String).data := by decide

/-- The literal of the predict doc splits off the `.predict()` mention. -/
theorem predict_literal_split :
    (".predict()" : String).data ++ (" for this param " : String).data =
      (".predict() for this param " : String).data := by decide

/-- The fit-parameter doc decomposed into its pieces; the cloudpickle
warning is appended exactly when the parameter is `callbacks`. -/
theorem fit_doc_data (cls q : String) :
    (fitParamDoc cls q).data =
      ("Refer to XGBoost doc of " : String).data ++ cls.data ++
        (".fit()" : String).data ++ (" for this param " : String).data ++ q.data ++
        (if q = "callbacks" then callbacksWarning.data else []) := by
  unfold fitParamDoc
  by_cases h : q = "callbacks"
  · subst h
    simp [String.data_append, ← fit_literal_split]
  · simp [h, String.data_append, ← fit_literal_split]

/-- The predict-parameter doc decomposed into its pieces. -/
theorem predict_doc_data (cls q : String) :
    (predictParamDoc cls q).data =
      ("Refer to XGBoost doc of " : String).data ++ cls.data ++
        (".predict()" : String).data ++ (" for this param " : String).data ++ q.data := by
  simp [predictParamDoc, String.data_append, ← predict_literal_split]

/-- C7: the run builds one descriptor per key with the doc of its loop;
each doc names the wrapped XGBoost class and the parameter name, fit docs
additionally mention `.fit()` and predict docs `.predict()`, and the fit
doc of `callbacks` is the plain fit doc with the cloudpickle warning
appended. -/
theorem mirrored_param_docs (cls q : String) (ks fs ps : List String) :
    ((set_pyspark_xgb_cls_param_attrs cls ks fs ps emptyAttrsState).created =
      ks.map (mkAttachedParam xgbParamDoc cls) ++
        fs.map (mkAttachedParam fitParamDoc cls) ++
        ps.map (mkAttachedParam predictParamDoc cls)) ∧
    (cls.data <:+: (xgbParamDoc cls q).data ∧ q.data <:+: (xgbParamDoc cls q).data) ∧
    (cls.data <:+: (fitParamDoc cls q).data ∧ q.data <:+: (fitParamDoc cls q).data ∧
      (".fit()" : String).data <:+: (fitParamDoc cls q).data) ∧
    (cls.data <:+: (predictParamDoc cls q).data ∧
      q.data <:+: (predictParamDoc cls q).data ∧
      (".predict()" : String).data <:+: (predictParamDoc cls q).data) ∧
    fitParamDoc cls "callbacks" =
      "Refer to XGBoost doc of " ++ cls ++ ".fit() for this param " ++ "callbacks" ++
        callbacksWarning := by
  refine ⟨?_, ⟨?_, ?_⟩, ⟨?_, ?_, ?_⟩, ⟨?_, ?_, ?_⟩, ?_⟩
  · rw [run_created]
    rfl
  · exact ⟨("Refer to XGBoost doc of " : String).data,
      (" for this param " : String).data ++ q.data, by simp [xgb_doc_data]⟩
  · exact ⟨("Refer to XGBoost doc of " : String).data ++ cls.data ++
      (" for this param " : String).data, [], by simp [xgb_doc_data]⟩
  · exact ⟨("Refer to XGBoost doc of " : String).data,
      (".fit()" : String).data ++ (" for this param " : String).data ++ q.data ++
        (if q = "callbacks" then callbacksWarning.data else []), by simp [fit_doc_data]⟩
  · exact ⟨("Refer to XGBoost doc of " : String).data ++ cls.data ++
      (".fit()" : String).data ++ (" for this param " : String).data,
      (if q = "callbacks" then callbacksWarning.data else []), by simp [fit_doc_data]⟩
  · exact ⟨("Refer to XGBoost doc of " : String).data ++ cls.data,
      (" for this param " : String).data ++ q.data ++
        (if q = "callbacks" then callbacksWarning.data else []), by simp [fit_doc_data]⟩
  · exact ⟨("Refer to XGBoost doc of " : String).data,
      (".predict()" : String).data ++ (" for this param " : String).data ++ q.data,
      by simp [predict_doc_data]⟩
  · exact ⟨("Refer to XGBoost doc of " : String).data ++ cls.data ++
      (".predict()" : String).data ++ (" for this param " : String).data, [],
      by simp [predict_doc_data]⟩
  · exact ⟨("Refer to XGBoost doc of " : String).data ++ cls.data,
      (" for this param " : String).data ++ q.data, by simp [predict_doc_data]⟩
  · unfold fitParamDoc
    rfl

/-- C8: the converter replaces every numpy generic scalar at any depth by
the corresponding plain scalar, leaves values that are not numpy generics,
dicts or lists unchanged, preserves dict keys (with their order and
values, key by key) and list length and order, and is installed as the
`typeConverter` of every mirrored `Param`. -/
theorem param_value_converter_correct (v : PyVal) (s : PyScalar) (t : String)
    (d : PyDict) (l : PyValList) (i : Nat) (k : String)
    (cls : String) (ks fs ps : List String) :
    PyVal.hasNp (param_value_converter v) = false ∧
    (PyVal.hasNp v = false → param_value_converter v = v) ∧
    param_value_converter (PyVal.np s) = PyVal.plain s ∧
    param_value_converter (PyVal.plain s) = PyVal.plain s ∧
    param_value_converter PyVal.pynone = PyVal.pynone ∧
    param_value_converter (PyVal.obj t) = PyVal.obj t ∧
    param_value_converter (PyVal.vdict d) = PyVal.vdict (convDict d) ∧
    param_value_converter (PyVal.vlist l) = PyVal.vlist (convList l) ∧
    (convDict d).keys = d.keys ∧
    (convDict d).lookupD k = (d.lookupD k).map param_value_converter ∧
    (convList l).length = l.length ∧
    (convList l).get? i = (l.get? i).map param_value_converter ∧
    (∀ pa : Param,
      pa ∈ (set_pyspark_xgb_cls_param_attrs cls ks fs ps emptyAttrsState).created →
        pa.typeConverter = param_value_converter) := by
  refine ⟨conv_hasNp_aux v, conv_eq_self_aux v, rfl, rfl, rfl, rfl, rfl, rfl,
    convDict_keys d, convDict_lookup d k, convList_length l, convList_get l i, ?_⟩
  intro pa hpa
  rw [run_created] at hpa
  simp only [List.mem_append, List.mem_map] at hpa
  rcases hpa with ((h | ⟨k2, hk2, hpa⟩) | ⟨k2, hk2, hpa⟩) | ⟨k2, hk2, hpa⟩
  · exact absurd h (by simp [emptyAttrsState])
  · rw [← hpa]; rfl
  · rw [← hpa]; rfl
  · rw [← hpa]; rfl

/-- Witness for C8: a numpy `int64` scalar nested in a dict inside a list
is converted to a plain int, everything else kept in place. -/
theorem param_value_converter_correct_witness :
    PyVal.hasNp (param_value_converter (PyVal.vlist (PyValList.cons
      (PyVal.vdict (PyDict.cons "a" (PyVal.np (PyScalar.int 3)) PyDict.nil))
      PyValList.nil))) = false ∧
    param_value_converter (PyVal.vlist (PyValList.cons
      (PyVal.vdict (PyDict.cons "a" (PyVal.np (PyScalar.int 3)) PyDict.nil))
      PyValList.nil)) =
      PyVal.vlist (PyValList.cons
        (PyVal.vdict (PyDict.cons "a" (PyVal.plain (PyScalar.int 3)) PyDict.nil))
        PyValList.nil) ∧
    param_value_converter (PyVal.plain (PyScalar.str "hist")) =
      PyVal.plain (PyScalar.str "hist") :=
  ⟨(param_value_converter_correct (PyVal.vlist (PyValList.cons
      (PyVal.vdict (PyDict.cons "a" (PyVal.np (PyScalar.int 3)) PyDict.nil))
      PyValList.nil)) (PyScalar.int 0) "" PyDict.nil PyValList.nil 0 "" "" [] [] []).1,
    rfl,
    (param_value_converter_correct (PyVal.plain (PyScalar.str "hist"))
      (PyScalar.int 0) "" PyDict.nil PyValList.nil 0 "" "" [] [] []).2.1 rfl⟩
